import Mathlib

/-!
Verification of the token lifecycle and credential-forwarding logic of the
Elastic Path MCP files/auth servers.

The embedding follows the Python source:
- `src/services/auth_service.py` (`AuthService.get_access_token`)
- `src/services/api_client.py` (`ApiClient._get_headers`, `set_current_token`,
  `delete`)
- `src/middleware/auth_middleware.py` (`AuthMiddleware.dispatch`)
- `src/mcp_server_auth.py` (`get_client_credentials_token`, `validate_token`)
- `src/api/auth.py` (`verify_token`)
- `src/mcp_server.py` (`get_auth_headers`, `delete_file`)

Time is modelled as a natural number of seconds (`datetime.now()` becomes an
explicit `now : Nat` argument).  Network interaction is modelled by passing the
(parsed view of the) HTTP response the transport would deliver as an explicit
argument, and every operation returns the number of network calls it performed,
so that "no network call" claims are decidable.
-/

set_option autoImplicit false

namespace MCPFiles

/-- Python truthiness of an `Optional[str]`: `None` and `""` are falsy. -/
def pyTruthy : Option String → Bool
  | none => false
  | some s => s ≠ ""

/-- Python `a or b` on `Optional[str]` values: returns `a` when it is truthy,
otherwise `b` (`b` is returned as-is, even when falsy). -/
def pyOr (a b : Option String) : Option String :=
  if pyTruthy a then a else b

/-- Python string interpolation of an `Optional[str]`: `f"{None}"` is the
literal string `"None"`. -/
def pyStr : Option String → String
  | none => "None"
  | some s => s

/-- Parsed view of a 2xx token-endpoint JSON body: the fields the code reads
via `token_data.get("access_token")` and `token_data.get("expires_in", 3600)`.
Either field may be absent. -/
structure TokenBody where
  access_token : Option String
  expires_in : Option Nat
  deriving DecidableEq, Repr

/-- Parsed view of a non-2xx token-endpoint error body: the fields the code
reads via `error_data.get(...)`. -/
structure ErrorBody where
  error : Option String
  error_description : Option String
  deriving DecidableEq, Repr

/-- Outcome of the `POST {base}/oauth/access_token` exchange as delivered by
the transport: a 2xx response with a JSON body, a non-2xx response (whose body
may fail to parse as JSON, modelled by `none`), or a transport-level failure
(timeout, connection refused) raised by the HTTP library itself. -/
inductive ExchangeResponse where
  | success (body : TokenBody)
  | httpError (status : Nat) (body : Option ErrorBody)
  | networkError (msg : String)
  deriving DecidableEq, Repr

/-- The module-level `token_cache` dict of `mcp_server_auth.py`:
`{"access_token": None, "expires_at": None}`. -/
structure TokenCacheState where
  access_token : Option String
  expires_at : Option Nat
  deriving DecidableEq, Repr

/-- The initial cache: both fields `None`. -/
def TokenCacheState.empty : TokenCacheState := ⟨none, none⟩

/-- Result of `get_client_credentials_token` in `mcp_server_auth.py`:
the returned dictionary on success (the fresh-token path spreads the raw
body, so `access_token` and `expires_in` may be absent), or one of the
raised exceptions. -/
inductive IssueResult where
  | ok (access_token : Option String) (cached : Bool) (expires_in : Option Nat)
  | missingCredentials
  | authenticationFailed (description : String)
  | transportError (msg : String)
  deriving DecidableEq, Repr

/-- The message `str(e)` of an `httpx.HTTPStatusError` carries the status. -/
def httpStatusErrorText (status : Nat) : String :=
  "HTTP status error " ++ toString status

/-- The Python condition `tok and exp and now < exp` guarding a cache hit
(an empty or `None` token is falsy; an absent expiry fails the test). -/
def pyCacheHit (now : Nat) (tok : Option String) (exp : Option Nat) : Bool :=
  pyTruthy tok &&
    match exp with
    | none => false
    | some e => decide (now < e)

/-- Result of one call to `get_client_credentials_token`: the value returned
or exception raised, the module-level cache afterwards, and the number of
network calls performed. -/
structure IssueCall where
  result : IssueResult
  cache : TokenCacheState
  networkCalls : Nat
  deriving DecidableEq, Repr

/-- `get_client_credentials_token(ctx, client_id, client_secret, force_refresh)`
from `mcp_server_auth.py`, lines 57-137.  `envClientId`/`envClientSecret` are
the module-level `CLIENT_ID`/`CLIENT_SECRET` defaults; `now` is the
`datetime.now()` captured at line 85; `resp` is the transport's answer to the
token POST (consulted only if the code reaches the network call). -/
def get_client_credentials_token (envClientId envClientSecret : String)
    (client_id client_secret : Option String) (force_refresh : Bool)
    (now : Nat) (cache : TokenCacheState) (resp : ExchangeResponse) :
    IssueCall :=
  -- client_id = client_id or CLIENT_ID ; client_secret = client_secret or CLIENT_SECRET
  let cid := pyStr (pyOr client_id (some envClientId))
  let csec := pyStr (pyOr client_secret (some envClientSecret))
  -- if not client_id or not client_secret: raise ValueError(...)
  if cid = "" ∨ csec = "" then
    ⟨.missingCredentials, cache, 0⟩
  -- if not force_refresh and token_cache["access_token"] and
  --    token_cache["expires_at"] and now < token_cache["expires_at"]:
  else if force_refresh = false ∧
      pyCacheHit now cache.access_token cache.expires_at = true then
    -- "expires_in": int((token_cache["expires_at"] - now).total_seconds())
    ⟨.ok cache.access_token true (some (cache.expires_at.getD 0 - now)), cache, 0⟩
  else
    match resp with
    | .success body =>
        -- expires_in = token_data.get("expires_in", 3600)
        let expires_in := body.expires_in.getD 3600
        -- token_cache["expires_at"] = now + timedelta(seconds=int(expires_in * 0.9))
        let cache' : TokenCacheState :=
          ⟨body.access_token, some (now + expires_in * 9 / 10)⟩
        -- return {**token_data, "cached": False}
        ⟨.ok body.access_token false body.expires_in, cache', 1⟩
    | .httpError status body =>
        -- error_data = {"error": "authentication_failed"}; try: error_data = e.response.json()
        -- except: error_data["error_description"] = str(e)
        -- raise ValueError(f"Authentication failed: {error_data.get('error_description', str(e))}")
        let fallback := httpStatusErrorText status
        let description :=
          match body with
          | some eb => (eb.error_description).getD fallback
          | none => fallback
        ⟨.authenticationFailed ("Authentication failed: " ++ description), cache, 1⟩
    | .networkError msg =>
        -- httpx transport errors are not httpx.HTTPStatusError: not caught, propagate
        ⟨.transportError msg, cache, 1⟩

/-! ## AuthService (`src/services/auth_service.py`) -/

/-- The token-cache fields of the `AuthService` instance:
`self.access_token` and `self.token_expiry`. -/
structure AuthServiceState where
  access_token : Option String
  token_expiry : Option Nat
  deriving DecidableEq, Repr

/-- A fresh `AuthService`: both cache fields `None`. -/
def AuthServiceState.init : AuthServiceState := ⟨none, none⟩

/-- Result of `AuthService.get_access_token`: the returned value (which is
`self.access_token` and may be `None`), or the re-raised
`requests.RequestException`. -/
inductive AuthServiceResult where
  | token (t : Option String)
  | raised (msg : String)
  deriving DecidableEq, Repr

/-- Result of one call to `AuthService.get_access_token`: the value returned
or exception raised, the instance's cache fields afterwards, the number of
network calls performed, and the `(client_id, client_secret)` form payload of
the token POST when one was made. -/
structure AuthServiceCall where
  result : AuthServiceResult
  state : AuthServiceState
  networkCalls : Nat
  sentPayload : Option (String × String)
  deriving DecidableEq, Repr

/-- `AuthService.get_access_token` from `auth_service.py`, lines 27-74.
`client_id`/`client_secret` are the instance fields loaded from configuration
(lines 15-16, used only to build the POST payload — the code performs no
missing-credentials check); `disableAuth` is `config.DISABLE_AUTH`; `now` the
`datetime.now()` of the cache check (line 38) and of the expiry computation
(line 61); `resp` the transport's answer to the token POST.  The whole body
runs under `self.token_lock`; the lock discipline is modelled separately by
`authServiceLockTrace`. -/
def AuthService.get_access_token (client_id client_secret : String)
    (disableAuth : Bool) (now : Nat)
    (st : AuthServiceState) (resp : ExchangeResponse) : AuthServiceCall :=
  -- if config.DISABLE_AUTH: return "development-token"
  if disableAuth then ⟨.token (some "development-token"), st, 0, none⟩
  -- if self.access_token and self.token_expiry and datetime.now() < self.token_expiry
  else if pyCacheHit now st.access_token st.token_expiry = true then
    ⟨.token st.access_token, st, 0, none⟩
  else
    -- payload = {"client_id": ..., "client_secret": ..., "grant_type": "client_credentials"}
    -- response = requests.post(self.token_endpoint, data=payload, headers=headers)
    let payload := some (client_id, client_secret)
    match resp with
    | .success body =>
        -- self.access_token = token_data.get("access_token")
        -- expires_in = token_data.get("expires_in", 3600)
        -- self.token_expiry = datetime.now() + timedelta(seconds=expires_in)
        let expires_in := body.expires_in.getD 3600
        let st' : AuthServiceState := ⟨body.access_token, some (now + expires_in)⟩
        ⟨.token body.access_token, st', 1, payload⟩
    | .httpError status _ =>
        -- raise_for_status raises requests.HTTPError; caught, logged, re-raised
        ⟨.raised (httpStatusErrorText status), st, 1, payload⟩
    | .networkError msg =>
        -- requests.RequestException from the transport; caught, logged, re-raised
        ⟨.raised msg, st, 1, payload⟩

/-! ## ApiClient (`src/services/api_client.py`) -/

/-- The headers built by `ApiClient._get_headers`. -/
structure JsonHeaders where
  authorization : String
  contentType : String
  accept : String
  deriving DecidableEq, Repr

/-- `ApiClient._get_headers(user_token)`, lines 16-26.  `current_token` is the
instance's shared `self.current_token` field; `serviceToken` is the value
`auth_service.get_access_token()` would return (consulted only when the first
two operands of the `or` chain are falsy; it is the raw return value, so it
may be `None`, which Python renders as the literal text `None`). -/
def ApiClient.get_headers (user_token current_token serviceToken : Option String) :
    JsonHeaders :=
  -- token = user_token or self.current_token or auth_service.get_access_token()
  let token := pyOr user_token (pyOr current_token serviceToken)
  { authorization := "Bearer " ++ pyStr token
    contentType := "application/json"
    accept := "application/json" }

/-- `get_auth_headers(user_token)` from `mcp_server.py`, lines 57-64:
`token = user_token or await get_access_token()`. -/
def get_auth_headers (user_token serviceToken : Option String) : JsonHeaders :=
  let token := pyOr user_token serviceToken
  { authorization := "Bearer " ++ pyStr token
    contentType := "application/json"
    accept := "application/json" }

/-- A parsed JSON document, as far as the claims need it: the bodies the
client returns are opaque parsed values; an empty body has no parse. -/
inductive Json where
  | value (s : String)
  deriving DecidableEq, Repr

/-- An upstream HTTP response to a resource call: its status code and the
result of parsing its body as JSON (`none` when the body is empty or not
JSON, so that calling `.json()` on it would raise). -/
structure HttpResponse where
  status : Nat
  jsonBody : Option Json
  deriving DecidableEq, Repr

/-- Result of `ApiClient.delete`: a non-2xx raises via `raise_for_status`, a
204 returns `None` without touching the body, any other 2xx returns
`response.json()` (raising a parse error when the body is not JSON). -/
inductive DeleteResult where
  | noContent
  | json (j : Json)
  | httpError (status : Nat)
  | jsonParseError
  deriving DecidableEq, Repr

/-- `ApiClient.delete` from `api_client.py`, lines 65-72, after the request
returned `response`.  The second component records whether `response.json()`
was invoked. -/
def ApiClient.delete (response : HttpResponse) : DeleteResult × Bool :=
  -- response.raise_for_status()
  if response.status < 200 ∨ 300 ≤ response.status then
    (.httpError response.status, false)
  -- if response.status_code != 204: return response.json()
  else if response.status = 204 then
    (.noContent, false)
  else
    match response.jsonBody with
    | some j => (.json j, true)
    | none => (.jsonParseError, true)

/-- `delete_file` from `mcp_server.py`, lines 276-287, after the DELETE
returned `response`: a 204 yields the synthesized success dictionary, any
other 2xx yields `response.json()`.  The second component records whether
`response.json()` was invoked. -/
def delete_file (response : HttpResponse) : DeleteResult × Bool :=
  if response.status < 200 ∨ 300 ≤ response.status then
    (.httpError response.status, false)
  else if response.status = 204 then
    -- result = {"status": "success", "message": ...}
    (.json (.value "status: success"), false)
  else
    match response.jsonBody with
    | some j => (.json j, true)
    | none => (.jsonParseError, true)

/-! ## AuthMiddleware and the shared `current_token` field
(`src/middleware/auth_middleware.py` with `src/services/api_client.py`)

`AuthMiddleware.dispatch` writes the forwarded token into the singleton
`api_client.current_token` before processing a request and clears it after.
The handler's upstream call reads that shared field through
`ApiClient._get_headers()`.  Concurrent requests interleave these atomic
steps; the interleaving semantics below makes the token each request's
upstream call presents observable. -/

/-- Does the character list start with the given pattern? -/
def listStartsWith : List Char → List Char → Bool
  | _, [] => true
  | [], _ :: _ => false
  | a :: as, b :: bs => a == b && listStartsWith as bs

/-- Python `s.startswith(p)`. -/
def pyStartsWith (s p : String) : Bool :=
  listStartsWith s.data p.data

/-- Worker for Python `str.split` with a non-empty separator, structurally
recursive on a fuel bounded by the input length. -/
def pySplitGo (sep : List Char) : Nat → List Char → List Char → List (List Char)
  | 0, acc, rest => [acc.reverse ++ rest]
  | _ + 1, acc, [] => [acc.reverse]
  | fuel + 1, acc, c :: cs =>
      if listStartsWith (c :: cs) sep then
        acc.reverse :: pySplitGo sep fuel [] (List.drop (sep.length - 1) cs)
      else
        pySplitGo sep fuel (c :: acc) cs

/-- Python `s.split(sep)` for a non-empty separator. -/
def pySplit (s sep : String) : List String :=
  (pySplitGo sep.data s.data.length [] s.data).map String.mk

/-- Whitespace as stripped by Python `str.strip()`. -/
def pyIsSpace (c : Char) : Bool :=
  c == ' ' || c == '\t' || c == '\n' || c == '\r'

/-- Python `s.strip()`. -/
def pyStrip (s : String) : String :=
  String.mk (((s.data.dropWhile pyIsSpace).reverse.dropWhile pyIsSpace).reverse)

/-- Python `auth_header.split("Bearer ")[1].strip()` (line 14 of
`auth_middleware.py`). -/
def extractBearer (auth_header : String) : String :=
  pyStrip ((pySplit auth_header "Bearer ").getD 1 "")

/-- One atomic step of one request's processing: a write to the shared
`api_client.current_token` field, or the handler's upstream call (which
builds headers from the shared field at that instant). -/
inductive ReqStep where
  | setCurrent (t : Option String)
  | upstreamCall
  deriving DecidableEq, Repr

/-- The step sequence `AuthMiddleware.dispatch` performs for one inbound
request carrying `auth_header`: set the extracted token (or `None`), run the
handler's upstream call, then clear the token (lines 10-27). -/
def dispatchSteps (auth_header : Option String) : List ReqStep :=
  match auth_header with
  | some h =>
      if pyStartsWith h "Bearer " then
        [.setCurrent (some (extractBearer h)), .upstreamCall, .setCurrent none]
      else
        [.setCurrent none, .upstreamCall, .setCurrent none]
  | none => [.setCurrent none, .upstreamCall, .setCurrent none]

/-- Interleaved execution state of two in-flight requests A and B: the shared
`current_token` field, each request's remaining steps, and the Authorization
header each request's upstream call presented (once it has run). -/
structure RaceState where
  current : Option String
  progA : List ReqStep
  progB : List ReqStep
  sentA : Option String
  sentB : Option String
  deriving DecidableEq, Repr

/-- Initial interleaving state for requests A and B with the given inbound
Authorization headers. -/
def RaceState.start (headerA headerB : Option String) : RaceState :=
  ⟨none, dispatchSteps headerA, dispatchSteps headerB, none, none⟩

/-- Execute one atomic step of request A (`who = true`) or B (`who = false`).
An upstream call presents the header `ApiClient._get_headers()` builds at that
instant (no explicit `user_token`, shared `current_token`, service token from
the client-credentials path). -/
def raceStep (serviceToken : Option String) (s : RaceState) (who : Bool) :
    RaceState :=
  if who then
    match s.progA with
    | [] => s
    | .setCurrent t :: rest => { s with current := t, progA := rest }
    | .upstreamCall :: rest =>
        { s with progA := rest,
                 sentA := some (ApiClient.get_headers none s.current serviceToken).authorization }
  else
    match s.progB with
    | [] => s
    | .setCurrent t :: rest => { s with current := t, progB := rest }
    | .upstreamCall :: rest =>
        { s with progB := rest,
                 sentB := some (ApiClient.get_headers none s.current serviceToken).authorization }

/-- Run a schedule (list of turns, `true` = A moves, `false` = B moves). -/
def runSchedule (serviceToken : Option String) (s : RaceState) :
    List Bool → RaceState
  | [] => s
  | w :: ws => runSchedule serviceToken (raceStep serviceToken s w) ws

/-! ## Lock discipline of `AuthService.get_access_token`
(`src/services/auth_service.py`, lines 36-74)

The whole body — cache check, token POST, cache write — is the body of
`with self.token_lock:`.  The event trace below mirrors that block
structure. -/

/-- Observable events of one `get_access_token` call. -/
inductive AuthEvent where
  | lockAcquire
  | lockRelease
  | cacheRead
  | networkPost
  | cacheWrite
  deriving DecidableEq, Repr

/-- `with self.token_lock:` around a body. -/
def withLock (body : List AuthEvent) : List AuthEvent :=
  [.lockAcquire] ++ body ++ [.lockRelease]

/-- Event trace of `AuthService.get_access_token` (auth enabled): the cache
check, and on a miss the network POST and the cache write, all inside the
`with self.token_lock:` block. -/
def authServiceLockTrace (cacheValid : Bool) : List AuthEvent :=
  withLock (if cacheValid then [.cacheRead]
            else [.cacheRead, .networkPost, .cacheWrite])

/-- Lock depth after the first `n` events of a trace. -/
def heldCount (tr : List AuthEvent) : Nat :=
  tr.foldl (fun d e =>
    match e with
    | .lockAcquire => d + 1
    | .lockRelease => d - 1
    | _ => d) 0

/-- The event at position `i` executes while the lock is held. -/
def lockHeldAt (tr : List AuthEvent) (i : Nat) : Bool :=
  0 < heldCount (tr.take (i + 1))

/-! ## Token validation probes
(`src/api/auth.py` `verify_token` and `src/mcp_server_auth.py`
`validate_token`) -/

/-- Outcome of the probe GET as delivered by the transport: a response with a
status code, or a transport-level failure raised by the HTTP library. -/
inductive ProbeResponse where
  | response (status : Nat)
  | networkError (msg : String)
  deriving DecidableEq, Repr

/-- The probe URL both validators build:
`{base}/{version}/files?page[limit]=1`. -/
def probeUrl (baseUrl apiVersion : String) : String :=
  baseUrl ++ "/" ++ apiVersion ++ "/files?page[limit]=1"

/-- Outcome of `verify_token` in `api/auth.py`: the token is returned, or an
HTTP 401 `"Invalid authentication credentials"` is raised. -/
inductive VerifyOutcome where
  | ok (token : String)
  | unauthorized
  deriving DecidableEq, Repr

/-- `verify_token` from `api/auth.py`, lines 17-45.  `requests`'
`raise_for_status` raises for 4xx/5xx statuses; any
`requests.RequestException` — the status error and every transport error
alike — is caught and mapped to the 401 response. -/
def verify_token (disableAuth : Bool) (token : String) (resp : ProbeResponse) :
    VerifyOutcome :=
  if disableAuth then .ok "development-user"
  else
    match resp with
    | .response status =>
        if 400 ≤ status then .unauthorized else .ok token
    | .networkError _ => .unauthorized

/-- Outcome of `validate_token` in `mcp_server_auth.py`: the returned
dictionary `{valid, status_code, ...}`, or an exception that propagates out
of the tool uncaught. -/
inductive ValidateOutcome where
  | result (valid : Bool) (status : Nat)
  | uncaught (msg : String)
  deriving DecidableEq, Repr

/-- `validate_token` from `mcp_server_auth.py`, lines 141-181.  Returns the
Authorization header the probe GET presents together with the outcome.
`httpx`'s `raise_for_status` raises `HTTPStatusError` for any non-2xx status,
and that is the only exception the `except` clause catches; a transport-level
`httpx` error is not an `HTTPStatusError` and propagates. -/
def validate_token (token : String) (resp : ProbeResponse) :
    String × ValidateOutcome :=
  let sentAuth := "Bearer " ++ token
  match resp with
  | .response status =>
      if 200 ≤ status ∧ status < 300 then (sentAuth, .result true status)
      else (sentAuth, .result false status)
  | .networkError msg => (sentAuth, .uncaught msg)

/-! ## Claims -/

/-- C1: the spec demands that per-request forwarded-token resolution be
isolated across in-flight requests.  The code stores the forwarded token in
the single shared `api_client.current_token` field, so under the interleaving
in which request A (token "alpha") runs its middleware write, then request B
(token "beta") runs its middleware write, and only then A's handler performs
its upstream call, A's upstream call presents `Bearer beta` — B's token.
This theorem evaluates the interleaving semantics of the code at exactly that
schedule. -/
theorem C1_forwarded_token_leaks_across_requests :
    (runSchedule (some "service-token")
        (RaceState.start (some "Bearer alpha") (some "Bearer beta"))
        [true, false, true, true, false, false]).sentA
      = some "Bearer beta" := by
  decide

/-- C2 counterexample: `AuthService.get_access_token` applies no 0.9 safety
factor.  On a successful exchange at time 0 with `expires_in = 100` it stores
expiry instant 100, while the claim requires the issue time plus
`expires_in * 0.9`, i.e. 90. -/
theorem C2_counterexample_no_safety_margin :
    (AuthService.get_access_token "id" "secret" false 0 AuthServiceState.init
        (.success ⟨some "tok", some 100⟩)).state.token_expiry = some 100 ∧
    (100 : Nat) ≠ 90 := by
  decide

/-- C2 amended: the MCP auth tool's `get_client_credentials_token` stores
expiry `now + ⌊expires_in * 0.9⌋` (3240 for `expires_in = 3600`), but the
HTTP-path `AuthService.get_access_token` stores `now + expires_in` with no
safety factor. -/
theorem C2_expiry_computation (cid csec : String)
    (hcid : cid ≠ "") (hcsec : csec ≠ "") (now : Nat) (body : TokenBody) :
    (get_client_credentials_token cid csec none none false now
        TokenCacheState.empty (.success body)).cache.expires_at
      = some (now + (body.expires_in.getD 3600) * 9 / 10) ∧
    (get_client_credentials_token cid csec none none false now
        TokenCacheState.empty (.success ⟨some "tok", some 3600⟩)).cache.expires_at
      = some (now + 3240) ∧
    (AuthService.get_access_token cid csec false now AuthServiceState.init
        (.success body)).state.token_expiry
      = some (now + body.expires_in.getD 3600) := by
  refine ⟨?_, ?_, ?_⟩ <;>
    simp [get_client_credentials_token, AuthService.get_access_token,
      TokenCacheState.empty, AuthServiceState.init, pyOr, pyStr, pyTruthy,
      pyCacheHit, hcid, hcsec]

/-- C2 witness: the amended expiry computation evaluated at concrete inputs. -/
theorem C2_expiry_computation_witness :
    (get_client_credentials_token "id" "secret" none none false 1000
        TokenCacheState.empty
        (.success ⟨some "tok", some 3600⟩)).cache.expires_at = some 4240 ∧
    (AuthService.get_access_token "id" "secret" false 1000 AuthServiceState.init
        (.success ⟨some "tok", some 3600⟩)).state.token_expiry = some 4600 := by
  have h := C2_expiry_computation "id" "secret" (by decide) (by decide) 1000
    ⟨some "tok", some 3600⟩
  exact ⟨h.2.1, h.2.2⟩

/-- C3: with `force_refresh = false` and a cached token whose expiry lies in
the future, `get_client_credentials_token` returns the cached token with
`cached = true` and performs no network call (for any transport behaviour);
and two successive calls starting from an empty cache, the first succeeding
with a fresh token, perform exactly one network exchange, the second
returning the cached token with `cached = true`.  (`AuthService` likewise
answers a valid-cache read without a network call.) -/
theorem C3_cached_read_no_network (cid csec tok : String)
    (hcid : cid ≠ "") (hcsec : csec ≠ "") (htok : tok ≠ "")
    (now ea ein now2 : Nat) (hea : now < ea)
    (hvalid : now2 < now + ein * 9 / 10) :
    (∀ resp, get_client_credentials_token cid csec none none false now
        ⟨some tok, some ea⟩ resp
      = ⟨.ok (some tok) true (some (ea - now)), ⟨some tok, some ea⟩, 0⟩) ∧
    (let c1 := get_client_credentials_token cid csec none none false now
        TokenCacheState.empty (.success ⟨some tok, some ein⟩)
     let c2 := get_client_credentials_token cid csec none none false now2
        c1.cache (.success ⟨some tok, some ein⟩)
     c1.networkCalls + c2.networkCalls = 1 ∧
       c2.result = .ok (some tok) true (some (now + ein * 9 / 10 - now2))) ∧
    (∀ resp, (AuthService.get_access_token cid csec false now
        ⟨some tok, some ea⟩ resp)
      = ⟨.token (some tok), ⟨some tok, some ea⟩, 0, none⟩) := by
  refine ⟨fun resp => ?_, ?_, fun resp => ?_⟩ <;>
    simp [get_client_credentials_token, AuthService.get_access_token,
      TokenCacheState.empty, pyOr, pyStr, pyTruthy, pyCacheHit,
      hcid, hcsec, htok, hea, hvalid]

/-- C3 witness: the cached-read behaviour evaluated at concrete inputs. -/
theorem C3_cached_read_no_network_witness :
    (get_client_credentials_token "id" "secret" none none false 0
        ⟨some "tok", some 10⟩ (.networkError "unreachable")
      = ⟨.ok (some "tok") true (some 10), ⟨some "tok", some 10⟩, 0⟩) ∧
    (let c1 := get_client_credentials_token "id" "secret" none none false 0
        TokenCacheState.empty (.success ⟨some "tok", some 3600⟩)
     let c2 := get_client_credentials_token "id" "secret" none none false 5
        c1.cache (.success ⟨some "tok", some 3600⟩)
     c1.networkCalls + c2.networkCalls = 1 ∧
       c2.result = .ok (some "tok") true (some 3235)) := by
  have h := C3_cached_read_no_network "id" "secret" "tok"
    (by decide) (by decide) (by decide) 0 10 3600 5 (by decide) (by decide)
  exact ⟨h.1 (.networkError "unreachable"), h.2.1⟩

/-- C4 counterexample: a transport-level network error during the token POST
is not caught by the `except httpx.HTTPStatusError` clause, so `issue()`
surfaces the raw transport exception rather than an authentication-failed
error (the cache is still left unchanged). -/
theorem C4_counterexample_network_error_not_wrapped :
    get_client_credentials_token "id" "secret" none none false 0
        TokenCacheState.empty (.networkError "connection refused")
      = ⟨.transportError "connection refused", TokenCacheState.empty, 1⟩ := by
  decide

/-- C4 amended: on a non-2xx token-endpoint response,
`get_client_credentials_token` raises an authentication-failed error whose
description is the error body's `error_description` when the body parses and
carries one, and otherwise the HTTP error text; a transport-level network
error propagates as the raw transport exception instead.  On every failure
path the token cache is left unchanged. -/
theorem C4_failure_paths (cid csec : String)
    (hcid : cid ≠ "") (hcsec : csec ≠ "")
    (now status : Nat) (eb : ErrorBody) (msg : String) :
    get_client_credentials_token cid csec none none false now
        TokenCacheState.empty (.httpError status (some eb))
      = ⟨.authenticationFailed ("Authentication failed: " ++
          eb.error_description.getD (httpStatusErrorText status)),
         TokenCacheState.empty, 1⟩ ∧
    get_client_credentials_token cid csec none none false now
        TokenCacheState.empty (.httpError status none)
      = ⟨.authenticationFailed ("Authentication failed: " ++
          httpStatusErrorText status), TokenCacheState.empty, 1⟩ ∧
    get_client_credentials_token cid csec none none false now
        TokenCacheState.empty (.networkError msg)
      = ⟨.transportError msg, TokenCacheState.empty, 1⟩ := by
  refine ⟨?_, ?_, ?_⟩ <;>
    simp [get_client_credentials_token, TokenCacheState.empty,
      pyOr, pyStr, pyTruthy, pyCacheHit, hcid, hcsec]

/-- C4 witness: the failure paths evaluated at the P8 scenario — HTTP 401
with body `{"error": "invalid_client"}` (no `error_description` field, so the
description falls back to the HTTP error text). -/
theorem C4_failure_paths_witness :
    get_client_credentials_token "id" "secret" none none false 0
        TokenCacheState.empty
        (.httpError 401 (some ⟨some "invalid_client", none⟩))
      = ⟨.authenticationFailed
          "Authentication failed: HTTP status error 401",
         TokenCacheState.empty, 1⟩ := by
  have h := C4_failure_paths "id" "secret" (by decide) (by decide) 0 401
    ⟨some "invalid_client", none⟩ "m"
  exact h.1

/-- C5 counterexample: `AuthService.get_access_token` performs no
missing-credentials check: with empty client id and secret (and an empty
cache) it still performs the token POST — one HTTP call, with the empty
credentials in the form payload — and fails only with the upstream's error,
never a missing-credentials error. -/
theorem C5_counterexample_authservice_posts_empty_credentials :
    AuthService.get_access_token "" "" false 0 AuthServiceState.init
        (.httpError 401 none)
      = ⟨.raised (httpStatusErrorText 401), AuthServiceState.init, 1,
         some ("", "")⟩ := by
  decide

/-- C5 amended: the MCP auth tool's `get_client_credentials_token` fails
fast with a missing-credentials error and performs zero network calls when
the resolved client id or secret is empty (even when the cache holds a valid
token, since the check precedes the cache read); the HTTP-path `AuthService`
performs the exchange regardless, posting whatever credentials it holds. -/
theorem C5_missing_credentials (envId envSec : String)
    (client_id client_secret : Option String)
    (h : pyStr (pyOr client_id (some envId)) = "" ∨
         pyStr (pyOr client_secret (some envSec)) = "")
    (force_refresh : Bool) (now : Nat) (cache : TokenCacheState)
    (resp : ExchangeResponse) :
    get_client_credentials_token envId envSec client_id client_secret
        force_refresh now cache resp = ⟨.missingCredentials, cache, 0⟩ ∧
    (AuthService.get_access_token "" "" false now AuthServiceState.init
        resp).networkCalls = 1 ∧
    (AuthService.get_access_token "" "" false now AuthServiceState.init
        resp).sentPayload = some ("", "") := by
  refine ⟨?_, ?_, ?_⟩
  · simp [get_client_credentials_token, h]
  · cases resp <;>
      simp [AuthService.get_access_token, AuthServiceState.init, pyCacheHit,
        pyTruthy]
  · cases resp <;>
      simp [AuthService.get_access_token, AuthServiceState.init, pyCacheHit,
        pyTruthy]

/-- C5 witness: missing credentials evaluated at a concrete input — no
explicit credentials, empty environment defaults, a valid cached token, and
a transport that would succeed: the call still fails fast with zero network
calls. -/
theorem C5_missing_credentials_witness :
    get_client_credentials_token "" "secret" none none false 0
        ⟨some "tok", some 10⟩ (.success ⟨some "tok", some 3600⟩)
      = ⟨.missingCredentials, ⟨some "tok", some 10⟩, 0⟩ := by
  have h := C5_missing_credentials "" "secret" none none (by left; decide)
    false 0 ⟨some "tok", some 10⟩ (.success ⟨some "tok", some 3600⟩)
  exact h.1

/-- C6: token resolution selects exactly one token with the precedence
explicit parameter, then the stored per-request token, then the service's
client-credentials token — in `ApiClient._get_headers` via the chain
`user_token or self.current_token or auth_service.get_access_token()`, and
in the MCP tool surface's `get_auth_headers` via
`user_token or await get_access_token()`. -/
theorem C6_token_precedence (t1 t2 : String) (ht1 : t1 ≠ "") (ht2 : t2 ≠ "")
    (u c s : Option String)
    (hu : pyTruthy u = false) (hc : pyTruthy c = false) :
    (ApiClient.get_headers (some t1) (some t2) s).authorization
        = "Bearer " ++ t1 ∧
    (ApiClient.get_headers u (some t2) s).authorization = "Bearer " ++ t2 ∧
    (ApiClient.get_headers u c s).authorization = "Bearer " ++ pyStr s ∧
    (get_auth_headers (some t1) s).authorization = "Bearer " ++ t1 ∧
    (get_auth_headers u s).authorization = "Bearer " ++ pyStr s := by
  have h1 : ∀ b, pyOr (some t1) b = some t1 := fun b => by
    simp [pyOr, pyTruthy, ht1]
  have h2 : ∀ b, pyOr (some t2) b = some t2 := fun b => by
    simp [pyOr, pyTruthy, ht2]
  have hu' : ∀ b, pyOr u b = b := fun b => by simp [pyOr, hu]
  have hc' : ∀ b, pyOr c b = b := fun b => by simp [pyOr, hc]
  refine ⟨?_, ?_, ?_, ?_, ?_⟩ <;>
    simp [ApiClient.get_headers, get_auth_headers, h1, h2, hu', hc', pyStr]

/-- C6 witness: the precedence chain evaluated at concrete tokens. -/
theorem C6_token_precedence_witness :
    (ApiClient.get_headers (some "explicit") (some "ambient")
        (some "service")).authorization = "Bearer explicit" ∧
    (ApiClient.get_headers none (some "ambient")
        (some "service")).authorization = "Bearer ambient" ∧
    (ApiClient.get_headers none none (some "service")).authorization
        = "Bearer service" := by
  have h := C6_token_precedence "explicit" "ambient" (by decide) (by decide)
    none none (some "service") (by decide) (by decide)
  exact ⟨h.1, h.2.1, h.2.2.1⟩

/-- C7 counterexample: in the cache-miss trace of
`AuthService.get_access_token` the token-exchange POST is the event at index
2, and it executes while the token lock is held — refuting the claim that
the lock is never held during a network call. -/
theorem C7_counterexample_lock_held_during_post :
    (authServiceLockTrace false)[2]? = some AuthEvent.networkPost ∧
    lockHeldAt (authServiceLockTrace false) 2 = true := by
  decide

/-- C7 amended: `AuthService.get_access_token` runs its whole body under
`with self.token_lock:` — on a cache miss the trace is acquire, cache read,
network POST, cache write, release, with the POST under the lock; on a hit
it is acquire, cache read, release. -/
theorem C7_whole_body_under_lock :
    authServiceLockTrace false
      = [.lockAcquire, .cacheRead, .networkPost, .cacheWrite, .lockRelease] ∧
    lockHeldAt (authServiceLockTrace false) 1 = true ∧
    lockHeldAt (authServiceLockTrace false) 2 = true ∧
    lockHeldAt (authServiceLockTrace false) 3 = true ∧
    authServiceLockTrace true = [.lockAcquire, .cacheRead, .lockRelease] ∧
    lockHeldAt (authServiceLockTrace true) 1 = true := by
  decide

/-- C8 counterexample: a transport-level network failure during the
`validate_token` probe propagates as an uncaught exception — it is not
surfaced as an invalid-token (`valid: false`) result. -/
theorem C8_counterexample_probe_network_error_uncaught :
    (validate_token "tok" (.networkError "timeout")).2
      = .uncaught "timeout" := by
  decide

/-- C8 amended: the probe is a minimal files-list GET with `page[limit]=1`
presenting the supplied token.  The HTTP-path `verify_token` maps every probe
failure it can see — a 4xx/5xx status or a transport error — to the 401
unauthorized response; the MCP tool's `validate_token` returns
`valid: false` for a non-2xx status but lets a transport-level failure
propagate as an uncaught exception. -/
theorem C8_probe_failure_mapping (token msg : String) (status bad : Nat)
    (h4 : 400 ≤ status) (hbad : bad < 200 ∨ 300 ≤ bad) :
    probeUrl "https://euwest.api.elasticpath.com" "v2"
      = "https://euwest.api.elasticpath.com/v2/files?page[limit]=1" ∧
    verify_token false token (.response status) = .unauthorized ∧
    verify_token false token (.networkError msg) = .unauthorized ∧
    (validate_token token (.response bad)).1 = "Bearer " ++ token ∧
    (validate_token token (.response bad)).2 = .result false bad ∧
    (validate_token token (.networkError msg)).2 = .uncaught msg := by
  have hb : ¬(200 ≤ bad ∧ bad < 300) := by omega
  refine ⟨rfl, ?_, ?_, ?_, ?_, ?_⟩ <;>
    simp [verify_token, validate_token, h4, hb]

/-- C8 witness: the probe failure mapping evaluated at a 401 status. -/
theorem C8_probe_failure_mapping_witness :
    verify_token false "tok" (.response 401) = .unauthorized ∧
    (validate_token "tok" (.response 401)).2 = .result false 401 := by
  have h := C8_probe_failure_mapping "tok" "timeout" 401 401
    (by decide) (by right; decide)
  exact ⟨h.2.1, h.2.2.2.2.1⟩

/-- C9: a 204 No Content answer to a delete yields an explicit no-content
success (`None` from `ApiClient.delete`, the synthesized success dictionary
from `delete_file`) with `response.json()` never invoked, while any other
2xx status has its JSON body parsed and returned. -/
theorem C9_delete_204_no_parse (status : Nat) (j : Json)
    (h2 : 200 ≤ status ∧ status < 300) (hne : status ≠ 204) :
    ApiClient.delete ⟨204, none⟩ = (.noContent, false) ∧
    delete_file ⟨204, none⟩ = (.json (.value "status: success"), false) ∧
    ApiClient.delete ⟨status, some j⟩ = (.json j, true) ∧
    delete_file ⟨status, some j⟩ = (.json j, true) := by
  have hs : ¬(status < 200 ∨ 300 ≤ status) := by omega
  refine ⟨by decide, by decide, ?_, ?_⟩ <;>
    simp [ApiClient.delete, delete_file, hs, hne]

/-- C9 witness: the 204 and 200 delete paths at concrete responses. -/
theorem C9_delete_204_no_parse_witness :
    ApiClient.delete ⟨204, none⟩ = (.noContent, false) ∧
    ApiClient.delete ⟨200, some (.value "body")⟩
      = (.json (.value "body"), true) := by
  have h := C9_delete_204_no_parse 200 (.value "body")
    (by decide) (by decide)
  exact ⟨h.1, h.2.2.1⟩

/-- C10: on a 2xx token-endpoint response whose body lacks `access_token`,
`AuthService.get_access_token` stores `None` as the cached token together
with a future expiry, returns `None` without raising, and the header builder
then renders the literal `Bearer None` for the upstream request. -/
theorem C10_missing_access_token_bearer_none (cid csec : String)
    (now : Nat) (ein : Option Nat) (hpos : 0 < ein.getD 3600) :
    AuthService.get_access_token cid csec false now AuthServiceState.init
        (.success ⟨none, ein⟩)
      = ⟨.token none, ⟨none, some (now + ein.getD 3600)⟩, 1,
         some (cid, csec)⟩ ∧
    now < now + ein.getD 3600 ∧
    (ApiClient.get_headers none none none).authorization = "Bearer None" := by
  refine ⟨?_, by omega, by decide⟩
  simp [AuthService.get_access_token, AuthServiceState.init, pyCacheHit,
    pyTruthy]

/-- C10 witness: the missing-`access_token` path at a concrete response. -/
theorem C10_missing_access_token_bearer_none_witness :
    AuthService.get_access_token "id" "secret" false 0 AuthServiceState.init
        (.success ⟨none, some 3600⟩)
      = ⟨.token none, ⟨none, some 3600⟩, 1, some ("id", "secret")⟩ ∧
    (ApiClient.get_headers none none none).authorization = "Bearer None" := by
  have h := C10_missing_access_token_bearer_none "id" "secret" 0 (some 3600)
    (by decide)
  exact ⟨h.1, h.2.2⟩

end MCPFiles
